import Mathlib

/-!
Verification of the dual-channel reconciliation engine of the
`TodoListDetail` component: optimistic item mutations with rollback,
the bulk "complete all" operation observed through a poll channel or a
push channel, and the push-event handler that folds progress events into
the item collection.

Every definition below is a direct translation of the corresponding
TypeScript in `TodoListDetail.tsx`: `useState` fields become fields of
`DetailState`, each event handler becomes a function from the state (and
the outcome of its remote call) to the new state together with the list
of remote requests it issued, and each `setItems` updater becomes the
pure list transformation it is.
-/

namespace TodoApp

/-- The `TodoListItem` interface of `types/index.ts`. -/
structure TodoListItem where
  id : String
  todoListId : String
  description : String
  completed : Bool
deriving Repr, DecidableEq

/-- The `mode` prop of `TodoListDetail`. -/
inductive Mode where
  | vanilla
  | websocket
deriving Repr, DecidableEq

/-- Remote requests the component can issue (the functions imported from
`services/api`, identified by name). -/
inductive Request where
  | getTodoListItems
  | createTodoListItem
  | updateTodoListItem
  | deleteTodoListItem
  | createMockData
  | completeAllItems
  | completeAllItemsSignalR
deriving Repr, DecidableEq

/-- The `useState` fields of `TodoListDetail`, plus `polling`, which models
whether `pollingIntervalRef.current` is non-null (a recurring fetch is
active). -/
structure DetailState where
  items : List TodoListItem
  newItemDesc : String
  loading : Bool
  error : Option String
  isMocking : Bool
  isCompletingAll : Bool
  editingItemId : Option String
  editingItemDesc : String
  completionProgress : Option (Int × Int)
  polling : Bool
deriving Repr, DecidableEq

/-- Result of running one handler: the new state, the remote requests it
issued (in order), and whether it rethrew the error to its caller. -/
structure StepResult where
  state : DetailState
  requests : List Request
  threw : Bool
deriving Repr, DecidableEq

/-- JS `String.prototype.trim`, modelled executably over the character
list: drop leading and trailing whitespace. -/
def jsTrim (s : String) : String :=
  String.mk (((s.data.dropWhile Char.isWhitespace).reverse.dropWhile
    Char.isWhitespace).reverse)

/-- The guard of the push-event handler:
`backendListIdStr && currentListIdStr && backendListIdStr === currentListIdStr`
after `toString().trim()` on both sides (an empty trimmed string is falsy
in JS, so it fails the guard). -/
def matchesList (updatedListId : Option String) (listId : String) : Bool :=
  match updatedListId with
  | none => false
  | some s =>
    let backendListIdStr := jsTrim s
    let currentListIdStr := jsTrim listId
    backendListIdStr != "" && currentListIdStr != "" &&
      backendListIdStr == currentListIdStr

/-- The `setItems` updater inside the `ReceiveTodoCompletionUpdate` handler:
find the first item whose id equals `justCompletedItemId`; if none exists or
it is already completed, return the collection unchanged, otherwise set that
item's `completed` flag to `true` in place. -/
def markCompleted (justCompletedItemId : String) (currentItems : List TodoListItem) :
    List TodoListItem :=
  match currentItems.findIdx? (fun item => item.id == justCompletedItemId) with
  | none => currentItems
  | some index =>
    match currentItems[index]? with
    | none => currentItems
    | some item =>
      if item.completed then currentItems
      else currentItems.set index { item with completed := true }

/-- The `ReceiveTodoCompletionUpdate` handler registered on the push
connection: on a matching list id, store the progress counters, apply
`markCompleted` when a just-completed item id is present (JS truthiness:
`null`/`undefined`/`""` skip it), and when `completedCount === totalCount`
with `totalCount > 0`, leave the Running state and clear the progress. -/
def receiveTodoCompletionUpdate (listId : String) (updatedListId : Option String)
    (justCompletedItemId : Option String) (completedCount totalCount : Int)
    (s : DetailState) : DetailState :=
  if matchesList updatedListId listId then
    let s1 := { s with completionProgress := some (completedCount, totalCount) }
    let s2 :=
      match justCompletedItemId with
      | some jid =>
        if jid = "" then s1
        else { s1 with items := markCompleted jid s1.items }
      | none => s1
    if completedCount = totalCount ∧ 0 < totalCount then
      { s2 with isCompletingAll := false, completionProgress := none }
    else s2
  else s

/-- `fetchItems(calledDuringPolling)`: the remote outcome of
`getTodoListItems(listId)` is passed in as `result`. -/
def fetchItems (mode : Mode) (calledDuringPolling : Bool)
    (result : Except Unit (List TodoListItem)) (s : DetailState) : StepResult :=
  let s := if calledDuringPolling = false ∧ s.isCompletingAll = false then
      { s with loading := true } else s
  let s := if calledDuringPolling = false then { s with error := none } else s
  let s := if calledDuringPolling = false ∧ mode = Mode.vanilla then
      { s with polling := false } else s
  match result with
  | Except.ok data =>
    let s := { s with items := data }
    let s :=
      if mode = Mode.vanilla ∧ calledDuringPolling = true ∧ 0 < data.length ∧
          data.all (fun item => item.completed) = true then
        { s with polling := false, isCompletingAll := false }
      else s
    let s := { s with error := none }
    let s := if calledDuringPolling = false then { s with loading := false } else s
    { state := s, requests := [Request.getTodoListItems], threw := false }
  | Except.error _ =>
    let errorMsg := "Failed to fetch list items" ++
      (if calledDuringPolling = true then " during polling" else "") ++ "."
    let s := { s with error := some errorMsg }
    let s :=
      if calledDuringPolling = true ∨ mode = Mode.vanilla then
        { s with polling := false, isCompletingAll := false, completionProgress := none }
      else s
    let s := if calledDuringPolling = false then { s with loading := false } else s
    { state := s, requests := [Request.getTodoListItems], threw := !calledDuringPolling }

/-- `handleCompleteAll`: the outcome of the trigger request
(`completeAllItemsSignalR` in websocket mode, `completeAllItems` in vanilla
mode) is passed in as `triggerResult`. -/
def handleCompleteAll (mode : Mode) (triggerResult : Except Unit Unit)
    (s : DetailState) : StepResult :=
  if s.isCompletingAll = true ∨ s.isMocking = true then
    { state := s, requests := [], threw := false }
  else
    let itemsToComplete := s.items.filter (fun item => !item.completed)
    if itemsToComplete.length = 0 then
      { state := s, requests := [], threw := false }
    else
      let s := { s with error := none, isCompletingAll := true }
      if mode = Mode.websocket then
        let totalItems := s.items.length
        let currentlyCompleted := totalItems - itemsToComplete.length
        let s := { s with
          completionProgress := some ((currentlyCompleted : Int), (totalItems : Int)) }
        match triggerResult with
        | Except.ok _ =>
          { state := s, requests := [Request.completeAllItemsSignalR], threw := false }
        | Except.error _ =>
          { state := { s with
              error := some "Failed to initiate complete all items (websocket mode).",
              isCompletingAll := false, completionProgress := none },
            requests := [Request.completeAllItemsSignalR], threw := false }
      else
        let s := { s with polling := false }
        match triggerResult with
        | Except.ok _ =>
          let s := if s.polling = false then { s with polling := true } else s
          { state := s, requests := [Request.completeAllItems], threw := false }
        | Except.error _ =>
          { state := { s with
              error := some "Failed to initiate complete all items (vanilla mode).",
              isCompletingAll := false },
            requests := [Request.completeAllItems], threw := false }

/-- `handleAddItem`: `tempId` models the generated `temp-${Date.now()}` id,
`result` the outcome of `createTodoListItem(listId, originalDesc)`. -/
def handleAddItem (listId : String) (tempId : String)
    (result : Except Unit TodoListItem) (s : DetailState) : StepResult :=
  if jsTrim s.newItemDesc = "" ∨ s.isCompletingAll = true ∨ s.isMocking = true then
    { state := s, requests := [], threw := false }
  else
    let s0 := { s with error := none }
    let newItemOptimistic : TodoListItem :=
      { id := tempId, todoListId := listId, description := s.newItemDesc, completed := false }
    let s1 := { s0 with items := s0.items ++ [newItemOptimistic] }
    let originalDesc := s.newItemDesc
    let s2 := { s1 with newItemDesc := "" }
    match result with
    | Except.ok newItem =>
      { state := { s2 with
          items := s2.items.map (fun item => if item.id == tempId then newItem else item) },
        requests := [Request.createTodoListItem], threw := false }
    | Except.error _ =>
      { state := { s2 with
          error := some "Failed to add item.",
          items := s2.items.filter (fun item => item.id != tempId),
          newItemDesc := originalDesc },
        requests := [Request.createTodoListItem], threw := false }

/-- The optimistic `setItems` updater of `handleToggleComplete` (a functional
update over the current collection). -/
def toggleCompleteApply (itemId : String) (prevItems : List TodoListItem) :
    List TodoListItem :=
  prevItems.map (fun i => if i.id == itemId then { i with completed := !i.completed } else i)

/-- The rollback `setItems` updater of `handleToggleComplete` (a functional
update over the collection current at rollback time, restoring the captured
`originalCompleted`). -/
def toggleCompleteRollback (itemId : String) (originalCompleted : Bool)
    (prevItems : List TodoListItem) : List TodoListItem :=
  prevItems.map (fun i => if i.id == itemId then { i with completed := originalCompleted } else i)

/-- The optimistic update of `handleDeleteItem`, applied to the `items`
snapshot captured at invocation. -/
def deleteItemApply (itemId : String) (items : List TodoListItem) : List TodoListItem :=
  items.filter (fun item => item.id != itemId)

/-- The rollback of `handleDeleteItem`: `setItems(originalItems)` replaces the
collection with the captured snapshot, ignoring the current collection. -/
def deleteItemRollback (originalItems : List TodoListItem)
    (_currentItems : List TodoListItem) : List TodoListItem :=
  originalItems

/-- The optimistic update of `handleUpdateItemDesc`, applied to the `items`
snapshot captured at invocation. -/
def updateItemDescApply (itemId : String) (editingItemDesc : String)
    (items : List TodoListItem) : List TodoListItem :=
  items.map (fun i => if i.id == itemId then { i with description := editingItemDesc } else i)

/-- The rollback of `handleUpdateItemDesc`: a map over the captured `items`
snapshot restoring the captured `originalDesc`, ignoring the current
collection. -/
def updateItemDescRollback (itemId : String) (originalDesc : String)
    (items : List TodoListItem) : List TodoListItem :=
  items.map (fun i => if i.id == itemId then { i with description := originalDesc } else i)

/-- The optimistic `setItems` updater of `handleAddItem` (a functional update
appending the provisional item). -/
def addItemApply (tempId listId desc : String) (prevItems : List TodoListItem) :
    List TodoListItem :=
  prevItems ++ [{ id := tempId, todoListId := listId, description := desc, completed := false }]

/-- The rollback `setItems` updater of `handleAddItem` (a functional update
over the collection current at rollback time, filtering out the provisional
id). -/
def addItemRollback (tempId : String) (prevItems : List TodoListItem) : List TodoListItem :=
  prevItems.filter (fun item => item.id != tempId)

/-- A concrete incomplete item, for witnesses and counterexamples. -/
def exItemA : TodoListItem :=
  { id := "1", todoListId := "5", description := "a", completed := false }

/-- A second concrete incomplete item with a distinct id. -/
def exItemB : TodoListItem :=
  { id := "2", todoListId := "5", description := "b", completed := false }

/-- A concrete completed item. -/
def exItemDone : TodoListItem :=
  { id := "3", todoListId := "5", description := "c", completed := true }

/-- A concrete state in which a bulk operation is Running with an active
recurring fetch. -/
def exRunningState : DetailState :=
  { items := [exItemA, exItemB], newItemDesc := "", loading := false, error := none,
    isMocking := false, isCompletingAll := true, editingItemId := none,
    editingItemDesc := "", completionProgress := none, polling := true }

/-- A concrete Idle state with one incomplete item. -/
def exIdleState : DetailState :=
  { items := [exItemA], newItemDesc := "", loading := false, error := none,
    isMocking := false, isCompletingAll := false, editingItemId := none,
    editingItemDesc := "", completionProgress := none, polling := false }

/-- A concrete Idle state in which every item is completed. -/
def exAllDoneState : DetailState :=
  { items := [exItemDone], newItemDesc := "", loading := false, error := none,
    isMocking := false, isCompletingAll := false, editingItemId := none,
    editingItemDesc := "", completionProgress := none, polling := false }

/-- A concrete Idle state with a non-blank new-item draft. -/
def exDraftState : DetailState :=
  { items := [exItemDone], newItemDesc := "buy milk", loading := false, error := none,
    isMocking := false, isCompletingAll := false, editingItemId := none,
    editingItemDesc := "", completionProgress := none, polling := false }

theorem filter_ne_of_fresh (tempId : String) (items : List TodoListItem)
    (hfresh : ∀ i ∈ items, i.id ≠ tempId) :
    items.filter (fun item => item.id != tempId) = items := by
  rw [List.filter_eq_self]
  intro a ha
  exact bne_iff_ne.mpr (hfresh a ha)

theorem add_roundtrip (tempId listId desc : String) (items : List TodoListItem)
    (hfresh : ∀ i ∈ items, i.id ≠ tempId) :
    addItemRollback tempId (addItemApply tempId listId desc items) = items := by
  unfold addItemApply addItemRollback
  rw [List.filter_append, filter_ne_of_fresh tempId items hfresh]
  simp

theorem toggle_roundtrip (itemId : String) (c : Bool) (items : List TodoListItem)
    (hc : ∀ i ∈ items, i.id = itemId → i.completed = c) :
    toggleCompleteRollback itemId c (toggleCompleteApply itemId items) = items := by
  induction items with
  | nil => rfl
  | cons i rest ih =>
    have hrest : ∀ j ∈ rest, j.id = itemId → j.completed = c :=
      fun j hj => hc j (List.mem_cons_of_mem _ hj)
    have htail := ih hrest
    unfold toggleCompleteApply toggleCompleteRollback at htail ⊢
    simp only [List.map_cons]
    by_cases h : i.id = itemId
    · have hcomp : i.completed = c := hc i (List.mem_cons_self i rest) h
      cases i
      simp_all
    · simp [h]
      simpa using htail

theorem updateDesc_rollback_self (itemId origDesc : String) (items : List TodoListItem)
    (hd : ∀ i ∈ items, i.id = itemId → i.description = origDesc) :
    updateItemDescRollback itemId origDesc items = items := by
  induction items with
  | nil => rfl
  | cons i rest ih =>
    have hrest : ∀ j ∈ rest, j.id = itemId → j.description = origDesc :=
      fun j hj => hd j (List.mem_cons_of_mem _ hj)
    have htail := ih hrest
    unfold updateItemDescRollback at htail ⊢
    simp only [List.map_cons]
    by_cases h : i.id = itemId
    · have hdesc : i.description = origDesc := hd i (List.mem_cons_self i rest) h
      cases i
      simp_all
    · simp [h]
      simpa using htail

theorem markCompleted_cons (jid : String) (i : TodoListItem) (rest : List TodoListItem) :
    markCompleted jid (i :: rest) =
      if i.id == jid then
        (if i.completed then i :: rest else { i with completed := true } :: rest)
      else i :: markCompleted jid rest := by
  unfold markCompleted
  rw [List.findIdx?_cons]
  by_cases h : (i.id == jid) = true
  · simp [h]
  · have h' : (i.id == jid) = false := by simp_all
    rw [h']
    simp only [Bool.false_eq_true, if_false, List.findIdx?_succ]
    cases hfi : rest.findIdx? (fun item => item.id == jid) with
    | none => simp
    | some k =>
      simp only [Option.map_some, List.getElem?_cons_succ]
      cases hk : rest[k]? with
      | none => simp [hk]
      | some item =>
        by_cases hcomp : item.completed <;> simp [hk, hcomp, List.set_cons_succ]

theorem markCompleted_idem (jid : String) (items : List TodoListItem) :
    markCompleted jid (markCompleted jid items) = markCompleted jid items := by
  induction items with
  | nil => rfl
  | cons i rest ih =>
    rw [markCompleted_cons]
    by_cases h : (i.id == jid) = true
    · by_cases hc : i.completed = true
      · simp [h, hc, markCompleted_cons]
      · have hc' : i.completed = false := by simp_all
        simp [h, hc', markCompleted_cons]
    · have h' : (i.id == jid) = false := by simp_all
      simp [h', markCompleted_cons, ih]

theorem markCompleted_absent (jid : String) (items : List TodoListItem)
    (habs : ∀ i ∈ items, i.id ≠ jid) : markCompleted jid items = items := by
  induction items with
  | nil => rfl
  | cons i rest ih =>
    have h : (i.id == jid) = false := by
      simp [habs i (List.mem_cons_self i rest)]
    rw [markCompleted_cons, h]
    simp [ih fun j hj => habs j (List.mem_cons_of_mem _ hj)]

theorem markCompleted_split (jid : String) (pre : List TodoListItem) (i : TodoListItem)
    (post : List TodoListItem) (hi : i.id = jid) (hpre : ∀ p ∈ pre, p.id ≠ jid) :
    markCompleted jid (pre ++ i :: post) =
      if i.completed then pre ++ i :: post
      else pre ++ { i with completed := true } :: post := by
  induction pre with
  | nil =>
    simp only [List.nil_append, markCompleted_cons, hi]
    simp
  | cons p pre ih =>
    have hp : (p.id == jid) = false := by
      simp [hpre p (List.mem_cons_self p pre)]
    have htail := ih fun q hq => hpre q (List.mem_cons_of_mem _ hq)
    rw [List.cons_append, markCompleted_cons, hp]
    by_cases hc : i.completed = true <;> simp_all

/-- Claim C1, counterexample: the claim fails as stated. The rollback of a
failed toggle is a functional update over the collection current at rollback
time, so a mutation interleaved between the optimistic toggle of item "1"
and its rollback (here: a successful optimistic toggle of item "2")
survives the rollback, and the resulting collection differs from the one
held immediately before the optimistic change. -/
theorem rollback_interleaving_counterexample :
    toggleCompleteRollback "1" false
        (toggleCompleteApply "2" (toggleCompleteApply "1" [exItemA, exItemB])) ≠
      [exItemA, exItemB] := by decide

/-- Claim C1, amended: when no other mutation is interleaved between the
optimistic change and its rollback, every one of the four rollbacks restores
the collection exactly as it was immediately before the optimistic change
(for create, provided the provisional id is fresh; for toggle and
edit-description, provided the captured original value agrees with the
collection). The delete and edit-description rollbacks restore the captured
snapshot even when other mutations are interleaved, because they overwrite
the collection with it; the create and toggle rollbacks are functional
updates and carry no such guarantee. -/
theorem rollback_restores_prior_state (items : List TodoListItem)
    (tempId listId desc itemId : String) (c : Bool) (origDesc : String)
    (interleave : List TodoListItem → List TodoListItem)
    (hfresh : ∀ i ∈ items, i.id ≠ tempId)
    (hc : ∀ i ∈ items, i.id = itemId → i.completed = c)
    (hd : ∀ i ∈ items, i.id = itemId → i.description = origDesc) :
    addItemRollback tempId (addItemApply tempId listId desc items) = items ∧
    toggleCompleteRollback itemId c (toggleCompleteApply itemId items) = items ∧
    deleteItemRollback items (interleave (deleteItemApply itemId items)) = items ∧
    updateItemDescRollback itemId origDesc items = items :=
  ⟨add_roundtrip tempId listId desc items hfresh,
   toggle_roundtrip itemId c items hc,
   rfl,
   updateDesc_rollback_self itemId origDesc items hd⟩

/-- Witness for the amended C1 at a concrete input. -/
theorem rollback_restores_prior_state_witness :
    addItemRollback "temp-9" (addItemApply "temp-9" "5" "milk" [exItemA]) = [exItemA] ∧
    toggleCompleteRollback "1" false (toggleCompleteApply "1" [exItemA]) = [exItemA] ∧
    deleteItemRollback [exItemA] ((fun l => l) (deleteItemApply "1" [exItemA])) = [exItemA] ∧
    updateItemDescRollback "1" "a" [exItemA] = [exItemA] :=
  rollback_restores_prior_state [exItemA] "temp-9" "5" "milk" "1" false "a" (fun l => l)
    (by decide) (by decide) (by decide)

/-- Claim C8: marking an item completed from a push event is idempotent and
total: an absent id leaves the collection unchanged; if the first item
carrying the id is already completed the collection is unchanged; otherwise
exactly that item's `completed` flag becomes `true` and every other item and
the order are untouched. -/
theorem markCompleted_idempotent_total (jid : String) (items : List TodoListItem) :
    markCompleted jid (markCompleted jid items) = markCompleted jid items ∧
    ((∀ i ∈ items, i.id ≠ jid) → markCompleted jid items = items) ∧
    (∀ pre i post, items = pre ++ i :: post → i.id = jid → (∀ p ∈ pre, p.id ≠ jid) →
      (i.completed = true → markCompleted jid items = items) ∧
      (i.completed = false →
        markCompleted jid items = pre ++ { i with completed := true } :: post)) := by
  refine ⟨markCompleted_idem jid items, markCompleted_absent jid items, ?_⟩
  rintro pre i post rfl hi hpre
  constructor
  · intro hcomp
    rw [markCompleted_split jid pre i post hi hpre, if_pos hcomp]
  · intro hcomp
    rw [markCompleted_split jid pre i post hi hpre, if_neg (by simp [hcomp])]

/-- Witness for C8 at a concrete input. -/
theorem markCompleted_idempotent_total_witness :
    markCompleted "1" [exItemA] = [] ++ { exItemA with completed := true } :: [] :=
  ((markCompleted_idempotent_total "1" [exItemA]).2.2 [] exItemA [] rfl rfl
    (by simp)).2 rfl

/-- Claim C9: the optimistic toggle update and its rollback preserve the
length and order of the collection, leave every item whose id differs from
the target unchanged, change at most the `completed` field of the items
carrying the target id, and leave the collection entirely unchanged when no
item carries the target id. -/
theorem toggle_frame_property (itemId : String) (c : Bool) (items : List TodoListItem) :
    (toggleCompleteApply itemId items).length = items.length ∧
    (toggleCompleteRollback itemId c items).length = items.length ∧
    (∀ (k : Nat) (it : TodoListItem), items[k]? = some it →
      (it.id ≠ itemId →
        (toggleCompleteApply itemId items)[k]? = some it ∧
        (toggleCompleteRollback itemId c items)[k]? = some it) ∧
      (it.id = itemId →
        (toggleCompleteApply itemId items)[k]? =
          some { it with completed := !it.completed } ∧
        (toggleCompleteRollback itemId c items)[k]? =
          some { it with completed := c })) ∧
    ((∀ i ∈ items, i.id ≠ itemId) →
      toggleCompleteApply itemId items = items ∧
      toggleCompleteRollback itemId c items = items) := by
  refine ⟨List.length_map _ _, List.length_map _ _, ?_, ?_⟩
  · intro k it hk
    constructor
    · intro hne
      unfold toggleCompleteApply toggleCompleteRollback
      rw [List.getElem?_map, List.getElem?_map, hk]
      simp [hne]
    · intro heq
      unfold toggleCompleteApply toggleCompleteRollback
      rw [List.getElem?_map, List.getElem?_map, hk]
      simp [heq]
  · intro habs
    constructor
    · unfold toggleCompleteApply
      have hcongr : ∀ a ∈ items,
          (fun i => if i.id == itemId then { i with completed := !i.completed } else i) a =
            id a := by
        intro a ha
        simp [habs a ha]
      rw [List.map_congr_left hcongr, List.map_id]
    · unfold toggleCompleteRollback
      have hcongr : ∀ a ∈ items,
          (fun i => if i.id == itemId then { i with completed := c } else i) a = id a := by
        intro a ha
        simp [habs a ha]
      rw [List.map_congr_left hcongr, List.map_id]

/-- Witness for C9 at a concrete input. -/
theorem toggle_frame_property_witness :
    (toggleCompleteApply "1" [exItemA])[0]? =
      some { exItemA with completed := !exItemA.completed } ∧
    (toggleCompleteRollback "1" true [exItemA])[0]? =
      some { exItemA with completed := true } :=
  ((toggle_frame_property "1" true [exItemA]).2.2.1 0 exItemA rfl).2 rfl

/-- Claim C2: in push mode, an inbound completion-progress event whose list
id matches the viewed list and which carries `completedCount = totalCount`
with `totalCount > 0` leaves the bulk-operation state Idle
(`isCompletingAll = false`) with the progress display cleared, from any
prior state — in particular from Running; and a further stray event with
the same counts (the second application below) leaves the state Idle with
progress cleared. -/
theorem push_completion_transitions_idle (listId : String)
    (updatedListId justCompletedItemId : Option String) (completedCount totalCount : Int)
    (s : DetailState)
    (hmatch : matchesList updatedListId listId = true)
    (heq : completedCount = totalCount) (hpos : 0 < totalCount) :
    ((receiveTodoCompletionUpdate listId updatedListId justCompletedItemId
        completedCount totalCount s).isCompletingAll = false ∧
      (receiveTodoCompletionUpdate listId updatedListId justCompletedItemId
        completedCount totalCount s).completionProgress = none) ∧
    ((receiveTodoCompletionUpdate listId updatedListId justCompletedItemId
        completedCount totalCount (receiveTodoCompletionUpdate listId updatedListId
          justCompletedItemId completedCount totalCount s)).isCompletingAll = false ∧
      (receiveTodoCompletionUpdate listId updatedListId justCompletedItemId
        completedCount totalCount (receiveTodoCompletionUpdate listId updatedListId
          justCompletedItemId completedCount totalCount s)).completionProgress = none) := by
  have key : ∀ t : DetailState,
      (receiveTodoCompletionUpdate listId updatedListId justCompletedItemId
        completedCount totalCount t).isCompletingAll = false ∧
      (receiveTodoCompletionUpdate listId updatedListId justCompletedItemId
        completedCount totalCount t).completionProgress = none := by
    intro t
    cases justCompletedItemId with
    | none => simp [receiveTodoCompletionUpdate, hmatch, heq, hpos]
    | some jid =>
      by_cases hj : jid = "" <;>
        simp [receiveTodoCompletionUpdate, hmatch, heq, hpos, hj]
  exact ⟨key s, key _⟩

/-- Witness for C2 at a concrete input. -/
theorem push_completion_transitions_idle_witness :
    ((receiveTodoCompletionUpdate "5" (some "5") (some "42") 3 3
        exRunningState).isCompletingAll = false ∧
      (receiveTodoCompletionUpdate "5" (some "5") (some "42") 3 3
        exRunningState).completionProgress = none) ∧
    ((receiveTodoCompletionUpdate "5" (some "5") (some "42") 3 3
        (receiveTodoCompletionUpdate "5" (some "5") (some "42") 3 3
          exRunningState)).isCompletingAll = false ∧
      (receiveTodoCompletionUpdate "5" (some "5") (some "42") 3 3
        (receiveTodoCompletionUpdate "5" (some "5") (some "42") 3 3
          exRunningState)).completionProgress = none) :=
  push_completion_transitions_idle "5" (some "5") (some "42") 3 3 exRunningState
    (by decide) rfl (by decide)

/-- Claim C3: in poll mode, a recurring-fetch result that is non-empty with
every item completed stops the recurring fetch and returns the
bulk-operation state to Idle, while a result that is empty or contains an
incomplete item leaves the recurring fetch and the Running state unchanged
(the result still replaces the item collection in both cases). -/
theorem poll_result_completion_detection (s : DetailState) (data : List TodoListItem) :
    ((data ≠ [] ∧ data.all (fun item => item.completed) = true) →
      (fetchItems Mode.vanilla true (Except.ok data) s).state.polling = false ∧
      (fetchItems Mode.vanilla true (Except.ok data) s).state.isCompletingAll = false ∧
      (fetchItems Mode.vanilla true (Except.ok data) s).state.items = data) ∧
    ((data = [] ∨ data.all (fun item => item.completed) = false) →
      (fetchItems Mode.vanilla true (Except.ok data) s).state.polling = s.polling ∧
      (fetchItems Mode.vanilla true (Except.ok data) s).state.isCompletingAll =
        s.isCompletingAll ∧
      (fetchItems Mode.vanilla true (Except.ok data) s).state.items = data) := by
  constructor
  · rintro ⟨hne, hall⟩
    have hpos : 0 < data.length := List.length_pos.mpr hne
    simp [fetchItems, hall, hpos]
  · rintro (h | h) <;> simp [fetchItems, h]

/-- Witness for C3 at a concrete input. -/
theorem poll_result_completion_detection_witness :
    (fetchItems Mode.vanilla true (Except.ok [exItemDone])
      exRunningState).state.polling = false ∧
    (fetchItems Mode.vanilla true (Except.ok [exItemDone])
      exRunningState).state.isCompletingAll = false ∧
    (fetchItems Mode.vanilla true (Except.ok [exItemDone])
      exRunningState).state.items = [exItemDone] :=
  (poll_result_completion_detection exRunningState [exItemDone]).1 (by decide)

/-- Claim C4: invoking the complete-all operation on a collection in which
every item is already completed (including the empty collection) is a
silent no-op: the state is unchanged and no remote request is issued. -/
theorem completeAll_noop_when_all_completed (mode : Mode) (triggerResult : Except Unit Unit)
    (s : DetailState) (hall : s.items.all (fun item => item.completed) = true) :
    handleCompleteAll mode triggerResult s =
      { state := s, requests := [], threw := false } := by
  have hf : s.items.filter (fun item => !item.completed) = [] := by
    rw [List.filter_eq_nil_iff]
    intro a ha
    simp [List.all_eq_true.mp hall a ha]
  unfold handleCompleteAll
  by_cases h : s.isCompletingAll = true ∨ s.isMocking = true
  · rw [if_pos h]
  · rw [if_neg h]
    simp [hf]

/-- Witness for C4 at a concrete input. -/
theorem completeAll_noop_when_all_completed_witness :
    handleCompleteAll Mode.vanilla (Except.ok ()) exAllDoneState =
      { state := exAllDoneState, requests := [], threw := false } :=
  completeAll_noop_when_all_completed Mode.vanilla (Except.ok ()) exAllDoneState (by decide)

/-- Claim C5, counterexample: the claim fails as stated. Starting from a
state whose bulk operation is Running with an active recurring fetch, a
successful manual fetch leaves the operation Running
(`isCompletingAll = true`) yet the recurring fetch is not restarted
(`polling = false`): `fetchItems` stops the cadence and contains no code
that starts it again. -/
theorem manual_fetch_restart_counterexample :
    (fetchItems Mode.vanilla false (Except.ok [exItemA, exItemB])
      exRunningState).state.isCompletingAll = true ∧
    (fetchItems Mode.vanilla false (Except.ok [exItemA, exItemB])
      exRunningState).state.polling = false := by decide

/-- Claim C5, amended: in poll mode every explicitly requested manual fetch
cancels any active recurring fetch cadence and leaves it stopped; the
cadence is not restarted after the manual fetch even when the bulk
operation is still Running (it is only started again by a successful
bulk-operation trigger). -/
theorem manual_fetch_stops_recurring_fetch (result : Except Unit (List TodoListItem))
    (s : DetailState) :
    (fetchItems Mode.vanilla false result s).state.polling = false := by
  cases result <;> simp [fetchItems]

/-- Claim C6: when the remote trigger of the bulk operation fails (in either
mode), the bulk-operation state reverts to Idle, the progress display is
cleared (in poll mode it was never set, which the hypothesis records), an
error status is surfaced, and exactly one trigger request was issued — the
failed trigger is not retried. -/
theorem trigger_failure_reverts_idle (mode : Mode) (s : DetailState)
    (hrun : s.isCompletingAll = false) (hmock : s.isMocking = false)
    (hsome : s.items.filter (fun item => !item.completed) ≠ [])
    (hprog : mode = Mode.vanilla → s.completionProgress = none) :
    (handleCompleteAll mode (Except.error ()) s).state.isCompletingAll = false ∧
    (handleCompleteAll mode (Except.error ()) s).state.completionProgress = none ∧
    (∃ msg, (handleCompleteAll mode (Except.error ()) s).state.error = some msg) ∧
    (handleCompleteAll mode (Except.error ()) s).requests.length = 1 := by
  have hlen : (s.items.filter (fun item => !item.completed)).length = 0 ↔ False := by
    simp [List.length_eq_zero, hsome]
  cases mode with
  | vanilla =>
    have hpn := hprog rfl
    simp [handleCompleteAll, hrun, hmock, hlen, hpn]
  | websocket =>
    simp [handleCompleteAll, hrun, hmock, hlen]

/-- Witness for C6 at a concrete input. -/
theorem trigger_failure_reverts_idle_witness :
    (handleCompleteAll Mode.vanilla (Except.error ())
      exIdleState).state.isCompletingAll = false ∧
    (handleCompleteAll Mode.vanilla (Except.error ())
      exIdleState).state.completionProgress = none ∧
    (∃ msg, (handleCompleteAll Mode.vanilla (Except.error ())
      exIdleState).state.error = some msg) ∧
    (handleCompleteAll Mode.vanilla (Except.error ()) exIdleState).requests.length = 1 :=
  trigger_failure_reverts_idle Mode.vanilla exIdleState rfl rfl (by decide) (fun _ => rfl)

/-- Claim C7: in poll mode, a failure of a fetch performed during polling
stops the recurring fetch, returns the bulk-operation state to Idle, clears
the progress display, surfaces an error status, and issues exactly one
fetch request (the individual fetch is not retried); the failure is
swallowed rather than rethrown. -/
theorem poll_fetch_failure_stops_and_idles (s : DetailState) :
    (fetchItems Mode.vanilla true (Except.error ()) s).state.polling = false ∧
    (fetchItems Mode.vanilla true (Except.error ()) s).state.isCompletingAll = false ∧
    (fetchItems Mode.vanilla true (Except.error ()) s).state.completionProgress = none ∧
    (fetchItems Mode.vanilla true (Except.error ()) s).state.error =
      some "Failed to fetch list items during polling." ∧
    (fetchItems Mode.vanilla true (Except.error ()) s).requests =
      [Request.getTodoListItems] ∧
    (fetchItems Mode.vanilla true (Except.error ()) s).threw = false := by
  simp [fetchItems]

/-- Claim C10: when an optimistic item creation fails remotely, besides
removing the provisional item (the collection returns to its prior value
when the provisional id is fresh), the new-item input draft is restored to
the attempted description rather than left cleared. -/
theorem add_failure_restores_draft (listId tempId : String) (s : DetailState)
    (hdesc : jsTrim s.newItemDesc ≠ "") (hca : s.isCompletingAll = false)
    (hmock : s.isMocking = false) (hfresh : ∀ i ∈ s.items, i.id ≠ tempId) :
    (handleAddItem listId tempId (Except.error ()) s).state.newItemDesc =
      s.newItemDesc ∧
    (handleAddItem listId tempId (Except.error ()) s).state.items = s.items ∧
    (handleAddItem listId tempId (Except.error ()) s).state.error =
      some "Failed to add item." := by
  simp [handleAddItem, hdesc, hca, hmock, filter_ne_of_fresh tempId s.items hfresh]

/-- Witness for C10 at a concrete input. -/
theorem add_failure_restores_draft_witness :
    (handleAddItem "5" "temp-9" (Except.error ()) exDraftState).state.newItemDesc =
      exDraftState.newItemDesc ∧
    (handleAddItem "5" "temp-9" (Except.error ()) exDraftState).state.items =
      exDraftState.items ∧
    (handleAddItem "5" "temp-9" (Except.error ()) exDraftState).state.error =
      some "Failed to add item." :=
  add_failure_restores_draft "5" "temp-9" exDraftState (by decide) rfl rfl (by decide)

end TodoApp
